import Mathlib

/-!
Verification of the Tableau-workbook → Power BI template converter
(`TableauToPowerBIConverter` in `src/Abc.py`).

The Python dictionaries produced by the XML extraction step are modelled as
structures whose fields are `Option String` (a missing dictionary key is
`none`; `dict.get(k, d)` is `Option.getD`).  Python string helpers that the
converter uses (`str.replace` with a single-character pattern and empty
replacement, `str.strip`, `str.startswith`, `str.lower`) are modelled by
executable Lean functions on the character list of the string.
-/

namespace Spark

/-- Column record parsed from a datasource `column` element. -/
structure PCol where
  name : Option String := none
  caption : Option String := none
  datatype : Option String := none
  role : Option String := none
  type : Option String := none
deriving DecidableEq

/-- Connection record parsed from a datasource `connection` element.
`cls` models the Python dictionary key `class` (a Lean keyword). -/
structure Connection where
  cls : Option String := none
  server : Option String := none
  port : Option String := none
  dbname : Option String := none
  username : Option String := none
  authentication : Option String := none
  schema : Option String := none
deriving DecidableEq

/-- Datasource record: name, caption, connection and column catalogue. -/
structure Datasource where
  name : Option String := none
  caption : Option String := none
  connection : Option Connection := none
  columns : List PCol := []
deriving DecidableEq

/-- Mark record of a worksheet (`cls` models the key `class`). -/
structure Mark where
  cls : Option String := none
  type : Option String := none
deriving DecidableEq

/-- Value of one encoding entry of a worksheet. -/
structure EncodingVal where
  field : Option String := none
  type : Option String := none
deriving DecidableEq

/-- Worksheet record; `encodings` is the insertion-ordered key/value list of
the Python dictionary `attr -> {field, type}`. -/
structure Worksheet where
  name : Option String := none
  marks : List Mark := []
  encodings : List (String × EncodingVal) := []
deriving DecidableEq

/-- Dashboard record (unused by the conversion core, carried through). -/
structure Dashboard where
  name : Option String := none
deriving DecidableEq

/-- The parsed workbook (`tableau_data` in the source). -/
structure Workbook where
  name : Option String := none
  datasources : List Datasource := []
  worksheets : List Worksheet := []
  dashboards : List Dashboard := []
deriving DecidableEq

/-! ## Python string helpers -/

/-- Python `s.replace(c, '')` for a single-character pattern: remove every
occurrence of the character. -/
def removeChar (c : Char) (s : String) : String :=
  ⟨s.data.filter (fun x => x != c)⟩

/-- `name.replace('[', '').replace(']', '')` from the source. -/
def stripBrackets (s : String) : String :=
  removeChar ']' (removeChar '[' s)

/-- Python `s.strip()`: drop leading and trailing whitespace. -/
def pyStrip (s : String) : String :=
  ⟨((s.data.dropWhile Char.isWhitespace).reverse.dropWhile Char.isWhitespace).reverse⟩

/-- Python `s.startswith(p)`. -/
def pyStartsWith (s p : String) : Bool :=
  s.data.take p.data.length == p.data

/-- ASCII lower-casing of one character (what `str.lower` does on the ASCII
strings the converter dispatches on). -/
def pyCharToLower (c : Char) : Char :=
  if 'A' ≤ c ∧ c ≤ 'Z' then Char.ofNat (c.toNat + 32) else c

/-- Python `s.lower()`. -/
def pyToLower (s : String) : String :=
  ⟨s.data.map pyCharToLower⟩

/-! ## `_map_powerbi_datatype` (src/Abc.py lines 635-645) -/

/-- `_map_powerbi_datatype`: map a Tableau type tag to a Power BI
Analysis Services type tag; dictionary lookup with default `'string'`. -/
def mapPowerbiDatatype (tableauType : String) : String :=
  let tl := pyToLower tableauType
  if tl = "string" then "string"
  else if tl = "integer" then "int64"
  else if tl = "real" then "double"
  else if tl = "date" then "dateTime"
  else if tl = "datetime" then "dateTime"
  else if tl = "boolean" then "boolean"
  else "string"

/-! ## Column collection (src/Abc.py lines 181-200) -/

/-- One entry of the `columns` list built by `generate_minimal_pbit_structure`:
`{'name': ..., 'dataType': ...}`. -/
structure ColOut where
  name : String
  dataType : String
deriving DecidableEq

/-- The column-collection loop of `generate_minimal_pbit_structure`
(lines 181-193): strip brackets from each raw name, accept it when it is
non-empty, does not start with `Measure`, is not whitespace-only and was not
seen before; stop as soon as 10 columns are accepted. -/
def buildColumnsLoop : List PCol → List String → List ColOut → List ColOut
  | [], _, acc => acc
  | col :: rest, seen, acc =>
    let colName := stripBrackets (col.name.getD "")
    if colName ≠ "" ∧ pyStartsWith colName "Measure" = false ∧
        pyStrip colName ≠ "" ∧ colName ∉ seen then
      let acc2 := acc ++ [⟨colName, mapPowerbiDatatype (col.datatype.getD "string")⟩]
      if 10 ≤ acc2.length then acc2
      else buildColumnsLoop rest (colName :: seen) acc2
    else buildColumnsLoop rest seen acc

/-- Columns collected from one datasource (loop started with empty list and
empty `seen_columns` set). -/
def buildColumns (ds : Datasource) : List ColOut :=
  buildColumnsLoop ds.columns [] []

/-- The fallback column pair of lines 196-200. -/
def fallbackColumns : List ColOut :=
  [⟨"Category", "string"⟩, ⟨"Value", "double"⟩]

/-- The final `columns` value of `generate_minimal_pbit_structure`
(lines 170-200): columns of the first datasource, or the fallback pair when
none were accepted. -/
def columnsOf (wb : Workbook) : List ColOut :=
  let cols :=
    match wb.datasources with
    | [] => []
    | ds :: _ => buildColumns ds
  if cols.isEmpty then fallbackColumns else cols

/-! ## Table name (src/Abc.py lines 170-179) -/

/-- A connection dictionary with every key absent (`{}` in Python). -/
def emptyConnection : Connection :=
  { cls := none, server := none, port := none, dbname := none,
    username := none, authentication := none, schema := none }

/-- The `table_name` computation of `generate_minimal_pbit_structure`
(lines 170-179): `ds.get('name', connection.get('schema', 'SampleData'))`,
then collapse `federated.`-prefixed names to `SampleData`. -/
def tableNameOf (wb : Workbook) : String :=
  match wb.datasources with
  | [] => "SampleData"
  | ds :: _ =>
    let connection := ds.connection.getD emptyConnection
    let tableName := ds.name.getD (connection.schema.getD "SampleData")
    if pyStartsWith tableName "federated." then "SampleData" else tableName

/-- `connection_info` of lines 203-206: the first datasource's connection
dictionary, `{}` when there is no datasource or no connection. -/
def connectionInfoOf (wb : Workbook) : Connection :=
  match wb.datasources with
  | [] => emptyConnection
  | ds :: _ => ds.connection.getD emptyConnection

/-! ## `_generate_enhanced_m_query` (src/Abc.py lines 586-633) -/

/-- Oracle M-query template of lines 603-607. -/
def oracleMQuery (serverWithPort database schema tableName : String) : String :=
  "let\n    Source = Oracle.Database(\"" ++ serverWithPort ++ "\", \"" ++ database ++
    "\"),\n    " ++ schema ++ "_" ++ tableName ++ " = Source\x7b[Schema=\"" ++ schema ++
    "\",Item=\"" ++ tableName ++ "\"]\x7d[Data]\nin\n    " ++ schema ++ "_" ++ tableName

/-- MySQL M-query template of lines 611-615. -/
def mysqlMQuery (server database tableName : String) : String :=
  "let\n    Source = MySQL.Database(\"" ++ server ++ "\", \"" ++ database ++
    "\"),\n    " ++ tableName ++ "_Table = Source\x7b[Name=\"" ++ tableName ++
    "\"]\x7d[Data]\nin\n    " ++ tableName ++ "_Table"

/-- PostgreSQL M-query template of lines 619-623. -/
def postgresMQuery (server database schema tableName : String) : String :=
  "let\n    Source = PostgreSQL.Database(\"" ++ server ++ "\", \"" ++ database ++
    "\"),\n    " ++ schema ++ "_" ++ tableName ++ " = Source\x7b[Schema=\"" ++ schema ++
    "\",Item=\"" ++ tableName ++ "\"]\x7d[Data]\nin\n    " ++ schema ++ "_" ++ tableName

/-- Default SQL Server M-query template of lines 627-631. -/
def sqlServerMQuery (server database schema tableName : String) : String :=
  "let\n    Source = Sql.Database(\"" ++ server ++ "\", \"" ++ database ++
    "\"),\n    " ++ schema ++ "_" ++ tableName ++ " = Source\x7b[Schema=\"" ++ schema ++
    "\",Item=\"" ++ tableName ++ "\"]\x7d[Data]\nin\n    " ++ schema ++ "_" ++ tableName

/-- `_generate_enhanced_m_query`: dispatch on the lower-cased connection
class; only the Oracle family appends `:port` to the server, and only when
`port` is non-empty. -/
def generateEnhancedMQuery (tableName : String) (connectionInfo : Connection) : String :=
  let connClass := pyToLower (connectionInfo.cls.getD "")
  let server := connectionInfo.server.getD "localhost"
  let database := connectionInfo.dbname.getD "SampleDB"
  let port := connectionInfo.port.getD ""
  let schema := connectionInfo.schema.getD "dbo"
  if connClass = "oracle" then
    let serverWithPort := if port ≠ "" then server ++ ":" ++ port else server
    oracleMQuery serverWithPort database schema tableName
  else if connClass = "mysql" then
    mysqlMQuery server database tableName
  else if connClass = "postgresql" then
    postgresMQuery server database schema tableName
  else
    sqlServerMQuery server database schema tableName

/-! ## `_get_tableau_visual_type` (src/Abc.py lines 553-584) -/

/-- The mark-class dispatch of lines 562-576 applied to the lower-cased class
of the first mark (the loop body always ends in `break`). -/
def markVisualDefault (markClass : String) : String :=
  if markClass = "bar" ∨ markClass = "automatic" then "columnChart"
  else if markClass = "line" then "lineChart"
  else if markClass = "circle" ∨ markClass = "shape" then "scatterChart"
  else if markClass = "square" ∨ markClass = "ganttbar" then "barChart"
  else if markClass = "text" then "table"
  else if markClass = "map" then "map"
  else "columnChart"

/-- `_get_tableau_visual_type`: mark-based default, then the `color`+`size`
scatter override, then (elif) the three-encodings table override. -/
def getTableauVisualType (ws : Worksheet) : String :=
  let attrs := ws.encodings.map Prod.fst
  let visualType :=
    match ws.marks with
    | [] => "columnChart"
    | mark :: _ => markVisualDefault (pyToLower (mark.cls.getD ""))
  if "color" ∈ attrs ∧ "size" ∈ attrs then "scatterChart"
  else if 3 ≤ ws.encodings.length then "table"
  else visualType

/-! ## JSON documents and `json.dumps(..., separators=(',', ':'))` -/

/-- JSON values, mirroring what `json.dumps` receives: Python `None`, `bool`,
`int`, `str`, `list` and (insertion-ordered) `dict`. -/
inductive Json where
  | null : Json
  | bool (b : Bool) : Json
  | num (n : Int) : Json
  | str (s : String) : Json
  | arr (elems : List Json) : Json
  | obj (fields : List (String × Json)) : Json

/-- Lower-case hexadecimal digit. -/
def hexDigit (n : Nat) : Char :=
  if n < 10 then Char.ofNat (48 + n) else Char.ofNat (87 + n)

/-- The escaping `json.dumps` applies inside string literals with
`ensure_ascii=False`: quote, backslash and control characters are escaped,
everything else is written as-is. -/
def escapeJsonChar (c : Char) : String :=
  if c = '"' then "\\\""
  else if c = '\\' then "\\\\"
  else if c = '\n' then "\\n"
  else if c = '\r' then "\\r"
  else if c = '\t' then "\\t"
  else if c.toNat = 8 then "\\b"
  else if c.toNat = 12 then "\\f"
  else if c.toNat < 32 then "\\u00" ++ ⟨[hexDigit (c.toNat / 16), hexDigit (c.toNat % 16)]⟩
  else ⟨[c]⟩

/-- A JSON string literal. -/
def escapeJsonString (s : String) : String :=
  "\"" ++ String.join (s.data.map escapeJsonChar) ++ "\""

mutual

/-- Compact serialization: `json.dumps(v, ensure_ascii=False, separators=(',', ':'))`. -/
def dumps : Json → String
  | .null => "null"
  | .bool true => "true"
  | .bool false => "false"
  | .num n => toString n
  | .str s => escapeJsonString s
  | .arr elems => "[" ++ dumpsElems elems ++ "]"
  | .obj fields => "\x7b" ++ dumpsFields fields ++ "\x7d"

/-- Comma-separated serialization of array elements. -/
def dumpsElems : List Json → String
  | [] => ""
  | [j] => dumps j
  | j :: rest => dumps j ++ "," ++ dumpsElems rest

/-- Comma-separated serialization of object entries. -/
def dumpsFields : List (String × Json) → String
  | [] => ""
  | [(k, v)] => escapeJsonString k ++ ":" ++ dumps v
  | (k, v) :: rest => escapeJsonString k ++ ":" ++ dumps v ++ "," ++ dumpsFields rest

end

/-! ## The five-part template structure (src/Abc.py lines 166-491) -/

/-- One column object inside `DataModelSchema.model.tables[0].columns`
(lines 266-273); `u` supplies the `str(uuid.uuid4())` results in call order
(index 0 is the table's `lineageTag`, index `idx+1` the column's). -/
def colJson (u : Nat → String) (idx : Nat) (col : ColOut) : Json :=
  .obj [
    ("name", .str col.name),
    ("lineageTag", .str (u (idx + 1))),
    ("dataType", .str col.dataType),
    ("sourceColumn", .str col.name),
    ("summarizeBy", .str (if col.dataType = "string" then "none" else "sum")),
    ("displayOrdinal", .num idx)]

/-- The `data_model_schema` dictionary of lines 216-290. -/
def dataModelSchemaJson (tableName : String) (columns : List ColOut)
    (mQuery : String) (u : Nat → String) : Json :=
  .obj [
    ("version", .str "1.0"),
    ("defaultPowerBIDataSourceVersion", .str "powerBI_V3"),
    ("dataAccessOptions", .obj [
      ("legacyRedirects", .bool true),
      ("returnErrorValuesAsNull", .bool true)]),
    ("name", .str "SemanticModel"),
    ("compatibilityLevel", .num 1567),
    ("defaultLocale", .str "en-US"),
    ("dataSources", .arr [
      .obj [
        ("type", .str "structured"),
        ("name", .str "DataSource1"),
        ("connectionDetails", .obj [
          ("protocol", .str "tds"),
          ("address", .obj [
            ("server", .str "localhost"),
            ("database", .str "SampleDB")]),
          ("authentication", .null),
          ("query", .null)]),
        ("options", .obj [
          ("includeRelationshipColumns", .bool false),
          ("privacy", .str "Public")]),
        ("credential", .obj [
          ("AuthenticationKind", .str "UsernamePassword"),
          ("kind", .str "SQL"),
          ("path", .str "localhost;SampleDB"),
          ("Username", .str "TableauUser")])]]),
    ("model", .obj [
      ("name", .str "SemanticModel"),
      ("description", .str "Converted from Tableau workbook"),
      ("culture", .str "en-US"),
      ("defaultLocale", .str "en-US"),
      ("collation", .str "Latin1_General_CI_AS"),
      ("dataAccessOptions", .obj [
        ("legacyRedirects", .bool true),
        ("returnErrorValuesAsNull", .bool true)]),
      ("tables", .arr [
        .obj [
          ("name", .str tableName),
          ("lineageTag", .str (u 0)),
          ("columns", .arr (columns.enum.map (fun p => colJson u p.1 p.2))),
          ("partitions", .arr [
            .obj [
              ("name", .str (tableName ++ "-Partition")),
              ("mode", .str "import"),
              ("dataView", .str "full"),
              ("source", .obj [
                ("type", .str "m"),
                ("expression", .str mQuery)])]])]])])]

/-- The category/value field override loop of lines 379-386: every encoding
whose bracket-stripped field names an accepted column overrides the
category (`x`/`columns`) or value (`y`/`rows`) field. -/
def fieldOverrides (columns : List ColOut) (encodings : List (String × EncodingVal))
    (init : String × String) : String × String :=
  encodings.foldl
    (fun cv e =>
      let fieldName := stripBrackets (e.2.field.getD "")
      if (fieldName != "") && columns.any (fun c => c.name == fieldName) then
        if e.1 = "x" ∨ e.1 = "columns" then (fieldName, cv.2)
        else if e.1 = "y" ∨ e.1 = "rows" then (cv.1, fieldName)
        else cv
      else cv)
    init

/-- The `visual_container` dictionary of lines 391-469. -/
def visualContainerJson (visualId tableName categoryField valueField visualType : String) : Json :=
  .obj [
    ("id", .str visualId),
    ("x", .num 50),
    ("y", .num 50),
    ("z", .num 1000),
    ("width", .num 600),
    ("height", .num 400),
    ("config", .obj [
      ("name", .str visualId),
      ("layouts", .arr [
        .obj [
          ("id", .num 0),
          ("position", .obj [
            ("x", .num 50),
            ("y", .num 50),
            ("z", .num 1000),
            ("width", .num 600),
            ("height", .num 400)])]]),
      ("singleVisual", .obj [
        ("visualType", .str visualType),
        ("projections", .obj [
          ("Category", .arr [
            .obj [
              ("queryRef", .str (tableName ++ "." ++ categoryField)),
              ("active", .bool true)]]),
          ("Y", .arr [
            .obj [
              ("queryRef", .str (tableName ++ "." ++ valueField)),
              ("active", .bool true)]])]),
        ("prototypeQuery", .obj [
          ("Version", .num 2),
          ("From", .arr [
            .obj [
              ("Name", .str "t"),
              ("Entity", .str tableName),
              ("Type", .num 0)]]),
          ("Select", .arr [
            .obj [
              ("Column", .obj [
                ("Expression", .obj [
                  ("SourceRef", .obj [("Source", .str "t")])]),
                ("Property", .str categoryField)]),
              ("Name", .str (tableName ++ "." ++ categoryField))],
            .obj [
              ("Aggregation", .obj [
                ("Expression", .obj [
                  ("Column", .obj [
                    ("Expression", .obj [
                      ("SourceRef", .obj [("Source", .str "t")])]),
                    ("Property", .str valueField)])]),
                ("Function", .num 1)]),
              ("Name", .str ("Sum(" ++ tableName ++ "." ++ valueField ++ ")"))]])])])])]

/-- The `report_layout` dictionary of lines 296-364, with the visual container
of lines 367-472 appended to the first page when the workbook has a worksheet
and the column list is non-empty. -/
def reportLayoutJson (wb : Workbook) (tableName : String) (columns : List ColOut)
    (reportId sectionId visualId : String) : Json :=
  let visualContainers : List Json :=
    match wb.worksheets, columns with
    | ws :: _, c0 :: crest =>
      let visualType := getTableauVisualType ws
      let categoryField := c0.name
      let valueField := match crest with
        | c1 :: _ => c1.name
        | [] => c0.name
      let cv := fieldOverrides columns ws.encodings (categoryField, valueField)
      [visualContainerJson visualId tableName cv.1 cv.2 visualType]
    | _, _ => []
  .obj [
    ("id", .str reportId),
    ("displayName", .str "Converted Tableau Report"),
    ("description", .str "Report converted from Tableau workbook"),
    ("pages", .arr [
      .obj [
        ("id", .str sectionId),
        ("displayName", .str "Page 1"),
        ("width", .num 1280),
        ("height", .num 720),
        ("displayOption", .num 1),
        ("visualContainers", .arr visualContainers),
        ("filters", .arr []),
        ("config", .obj [
          ("layouts", .arr [
            .obj [
              ("id", .num 0),
              ("position", .obj [
                ("x", .num 0),
                ("y", .num 0),
                ("z", .num 0),
                ("width", .num 1280),
                ("height", .num 720)])]])])]]),
    ("config", .obj [
      ("theme", .obj [("name", .str "CityPark")]),
      ("layoutType", .num 0),
      ("objects", .obj [
        ("section", .arr [
          .obj [
            ("properties", .obj [
              ("page", .obj [
                ("background", .arr [
                  .obj [
                    ("color", .obj [
                      ("solid", .obj [
                        ("color", .str "#FFFFFF")])])]])])])]])])]),
    ("resourcePackages", .arr [
      .obj [
        ("resourcePackage", .obj [
          ("type", .str "ResourcePackage"),
          ("items", .arr [
            .obj [
              ("type", .str "Report"),
              ("displayName", .str "Report"),
              ("id", .str reportId)]])])]])]

/-- The `Settings` dictionary of lines 485-489. -/
def settingsJson : Json :=
  .obj [
    ("useStylableVisualContainerHeader", .bool true),
    ("exportDataMode", .num 1),
    ("useNewFilterPaneExperience", .bool true)]

/-- The `metadata` dictionary of lines 474-479 (a literal, independent of the
workbook; `modifiedTime` is hard-coded). -/
def metadataJson : Json :=
  .obj [
    ("version", .str "4.0"),
    ("culture", .str "en-US"),
    ("modifiedTime", .str "2024-01-01T00:00:00.000Z")]

/-- The five-part dictionary returned by `generate_minimal_pbit_structure`
(lines 481-491). -/
structure PbitStructure where
  dataModelSchema : Json
  layout : Json
  version : String
  settings : Json
  metadata : Json

/-- `generate_minimal_pbit_structure` (lines 166-491).  `u` enumerates the
`str(uuid.uuid4())` calls in execution order: table lineage tag, one tag per
column, `report_id`, `section_id`, `visual_id`. -/
def generateMinimalPbitStructure (wb : Workbook) (u : Nat → String) : PbitStructure :=
  let tableName := tableNameOf wb
  let columns := columnsOf wb
  let mQuery := generateEnhancedMQuery tableName (connectionInfoOf wb)
  let n := columns.length
  { dataModelSchema := dataModelSchemaJson tableName columns mQuery u,
    layout := reportLayoutJson wb tableName columns (u (n + 1)) (u (n + 2)) (u (n + 3)),
    version := "4.0",
    settings := settingsJson,
    metadata := metadataJson }

/-! ## Byte encodings and the archive (src/Abc.py lines 647-728)

`create_pbit_file` writes each JSON member as the 2-byte BOM `FF FE`
followed by `json_str.encode('utf-16le')`, writes `Version` through a UTF-8
text-mode writer, then zips the staging directory with `os.walk`.  `os.walk`
is top-down: the four files of the staging root come first (in the order the
directory enumeration returns them, modelled by the `rootOrder` parameter)
and `Report/Layout` comes last.  `zipfile.ZipFile.write` stores each file's
modification time in the member header, modelled by the `mtime` parameter. -/

/-- Python `str.encode('utf-16le')` for one character: code points below
`0x10000` become one little-endian code unit, the rest a surrogate pair. -/
def utf16leEncodeChar (c : Char) : List Nat :=
  if c.toNat < 0x10000 then [c.toNat % 256, c.toNat / 256]
  else [(0xD800 + (c.toNat - 0x10000) / 0x400) % 256,
        (0xD800 + (c.toNat - 0x10000) / 0x400) / 256,
        (0xDC00 + (c.toNat - 0x10000) % 0x400) % 256,
        (0xDC00 + (c.toNat - 0x10000) % 0x400) / 256]

/-- Python `s.encode('utf-16le')`. -/
def utf16leEncode (s : String) : List Nat :=
  (s.data.map utf16leEncodeChar).flatten

/-- UTF-16LE decoding of a byte list: pairs of bytes become code units,
surrogate pairs are recombined, lone or ill-ordered surrogates and odd
lengths fail. -/
def utf16leDecodeList : List Nat → Option (List Char)
  | [] => some []
  | [_] => none
  | [b0, b1] =>
    if 0xD800 ≤ b0 + 256 * b1 ∧ b0 + 256 * b1 < 0xE000 then none
    else some [Char.ofNat (b0 + 256 * b1)]
  | [b0, b1, _] =>
    if 0xD800 ≤ b0 + 256 * b1 ∧ b0 + 256 * b1 < 0xE000 then none
    else none
  | b0 :: b1 :: b2 :: b3 :: rest =>
    if 0xD800 ≤ b0 + 256 * b1 ∧ b0 + 256 * b1 < 0xDC00 then
      if 0xDC00 ≤ b2 + 256 * b3 ∧ b2 + 256 * b3 < 0xE000 then
        (utf16leDecodeList rest).map
          (fun cs =>
            Char.ofNat
              (0x10000 + (b0 + 256 * b1 - 0xD800) * 0x400 + (b2 + 256 * b3 - 0xDC00)) :: cs)
      else none
    else if 0xDC00 ≤ b0 + 256 * b1 ∧ b0 + 256 * b1 < 0xE000 then none
    else (utf16leDecodeList (b2 :: b3 :: rest)).map
      (fun cs => Char.ofNat (b0 + 256 * b1) :: cs)

/-- UTF-16LE decoding to a string. -/
def utf16leDecode (bs : List Nat) : Option String :=
  (utf16leDecodeList bs).map String.mk

/-- UTF-8 encoding of one character. -/
def utf8EncodeChar (c : Char) : List Nat :=
  if c.toNat < 0x80 then [c.toNat]
  else if c.toNat < 0x800 then [0xC0 + c.toNat / 0x40, 0x80 + c.toNat % 0x40]
  else if c.toNat < 0x10000 then
    [0xE0 + c.toNat / 0x1000, 0x80 + (c.toNat / 0x40) % 0x40, 0x80 + c.toNat % 0x40]
  else
    [0xF0 + c.toNat / 0x40000, 0x80 + (c.toNat / 0x1000) % 0x40,
     0x80 + (c.toNat / 0x40) % 0x40, 0x80 + c.toNat % 0x40]

/-- UTF-8 encoding of a string (what the text-mode UTF-8 writer emits for
newline-free content). -/
def utf8Encode (s : String) : List Nat :=
  (s.data.map utf8EncodeChar).flatten

/-- The 2-byte UTF-16LE byte-order mark `FF FE` (line 662 and friends). -/
def utf16Bom : List Nat := [0xFF, 0xFE]

/-- Bytes of one JSON-bearing member: BOM, then the compact JSON document
encoded as UTF-16LE (lines 660-665, 672-677, 686-691, 695-700). -/
def jsonMemberBytes (j : Json) : List Nat :=
  utf16Bom ++ utf16leEncode (dumps j)

/-- Bytes of the staged file with the given archive name (lines 658-700):
four UTF-16LE members with BOM, and `Version` as plain UTF-8 with no BOM. -/
def memberBytes (ps : PbitStructure) (memberName : String) : List Nat :=
  if memberName = "DataModelSchema" then jsonMemberBytes ps.dataModelSchema
  else if memberName = "Version" then utf8Encode ps.version
  else if memberName = "Settings" then jsonMemberBytes ps.settings
  else if memberName = "Metadata" then jsonMemberBytes ps.metadata
  else if memberName = "Report/Layout" then jsonMemberBytes ps.layout
  else []

/-- One member of the produced zip archive: `zipfile.ZipFile.write` records
the arcname, the file's modification time (part of the local file header
bytes) and the file data. -/
structure ZipEntry where
  name : String
  mtime : Nat
  data : List Nat
deriving DecidableEq

/-- The four files written to the staging root, in creation order
(lines 658-700); `os.walk` may enumerate them in any order. -/
def rootMemberWriteOrder : List String :=
  ["DataModelSchema", "Version", "Settings", "Metadata"]

/-- The archive produced by the `os.walk` loop of lines 708-713: the root
directory's files first (in enumeration order `rootOrder`), then the
`Report` subdirectory's single file `Report/Layout`. -/
def pbitArchive (ps : PbitStructure) (rootOrder : List String) (mtime : String → Nat) :
    List ZipEntry :=
  (rootOrder ++ ["Report/Layout"]).map (fun n => ⟨n, mtime n, memberBytes ps n⟩)

/-- The member names of the produced archive, in archive order. -/
def pbitMemberNames (ps : PbitStructure) (rootOrder : List String) (mtime : String → Nat) :
    List String :=
  (pbitArchive ps rootOrder mtime).map ZipEntry.name

/-! ## Claim-side reference definitions

The following definitions transcribe the wording of the spec/claims (not the
source); they exist to be compared with the source-derived definitions
above. -/

/-- Semantic type tags as the spec names them (§4.1). -/
inductive SemType where
  | text : SemType
  | integer64 : SemType
  | double : SemType
  | datetime : SemType
  | boolean : SemType
deriving DecidableEq

/-- Rendering of the spec's semantic type tags as the concrete strings the
source emits (`text` is written `string`, `integer64` is written `int64`,
`datetime` is written `dateTime`). -/
def renderSemType : SemType → String
  | .text => "string"
  | .integer64 => "int64"
  | .double => "double"
  | .datetime => "dateTime"
  | .boolean => "boolean"

/-- The TypeMapper table in the claims' wording: `string→text`,
`integer→integer64`, `real→double`, `date→datetime`, `datetime→datetime`,
`boolean→boolean`, case-insensitively, anything else `→text`. -/
def specTypeMapper (sourceType : String) : SemType :=
  match pyToLower sourceType with
  | "string" => .text
  | "integer" => .integer64
  | "real" => .double
  | "date" => .datetime
  | "datetime" => .datetime
  | "boolean" => .boolean
  | _ => .text

/-- A column of the spec's `TemplateModel`: name plus semantic type. -/
structure SpecCol where
  name : String
  semanticType : SemType
deriving DecidableEq

/-- Rendering a spec column as the source's column dictionary. -/
def renderSpecCol (c : SpecCol) : ColOut :=
  ⟨c.name, renderSemType c.semanticType⟩

/-- The reference column algorithm exactly as claim C3 words it: strip
brackets, TRIM surrounding whitespace, reject empty names and names starting
with `Measure`, de-duplicate by exact name (first wins), stop after 10
accepted columns (`fuel` counts the remaining slots). -/
def specRefColumnsTrimAux : List PCol → List String → Nat → List SpecCol
  | [], _, _ => []
  | col :: rest, seen, fuel =>
    if fuel = 0 then []
    else
      let name := pyStrip (stripBrackets (col.name.getD ""))
      if name ≠ "" ∧ pyStartsWith name "Measure" = false ∧ name ∉ seen then
        ⟨name, specTypeMapper (col.datatype.getD "string")⟩ ::
          specRefColumnsTrimAux rest (name :: seen) (fuel - 1)
      else specRefColumnsTrimAux rest seen fuel

/-- Claim C3's reference algorithm on a datasource's column list. -/
def specRefColumnsTrim (cols : List PCol) : List SpecCol :=
  specRefColumnsTrimAux cols [] 10

/-- The reference column algorithm amended to match the source: the
bracket-stripped name is kept UNTRIMMED; a name is rejected when it is empty
after trimming (i.e. whitespace-only) or starts with `Measure`;
de-duplication uses the untrimmed name. -/
def specRefColumnsAux : List PCol → List String → Nat → List SpecCol
  | [], _, _ => []
  | col :: rest, seen, fuel =>
    if fuel = 0 then []
    else
      let name := stripBrackets (col.name.getD "")
      if pyStrip name ≠ "" ∧ pyStartsWith name "Measure" = false ∧ name ∉ seen then
        ⟨name, specTypeMapper (col.datatype.getD "string")⟩ ::
          specRefColumnsAux rest (name :: seen) (fuel - 1)
      else specRefColumnsAux rest seen fuel

/-- The amended reference algorithm on a datasource's column list. -/
def specRefColumns (cols : List PCol) : List SpecCol :=
  specRefColumnsAux cols [] 10

/-- Claim C6's table-name cascade: the datasource's own name; if absent the
connection schema; if absent the default; a `federated.`-prefixed resolved
name is replaced by the default. -/
def specTableName (ds : Datasource) : String :=
  let resolved :=
    match ds.name with
    | some n => n
    | none =>
      match ds.connection with
      | some c =>
        match c.schema with
        | some s => s
        | none => "SampleData"
      | none => "SampleData"
  if pyStartsWith resolved "federated." then "SampleData" else resolved

/-- Claim C7's fixed mark-class lookup. -/
def specMarkLookup (markClass : String) : String :=
  match markClass with
  | "bar" => "columnChart"
  | "automatic" => "columnChart"
  | "line" => "lineChart"
  | "circle" => "scatterChart"
  | "shape" => "scatterChart"
  | "square" => "barChart"
  | "ganttbar" => "barChart"
  | "text" => "table"
  | "map" => "map"
  | _ => "columnChart"

/-- Claim C7 amended: the mark-based default from the first mark, overridden
to scatter chart when both a `color` and a `size` encoding are present, and
otherwise overridden to table when three or more encodings are present (the
scatter override takes precedence over the table override). -/
def specChartKind (ws : Worksheet) : String :=
  let attrs := ws.encodings.map Prod.fst
  if "color" ∈ attrs ∧ "size" ∈ attrs then "scatterChart"
  else if 3 ≤ ws.encodings.length then "table"
  else
    match ws.marks with
    | [] => "columnChart"
    | mark :: _ => specMarkLookup (pyToLower (mark.cls.getD ""))

/-- The member order claim C1 asserts. -/
def claimedMemberOrder : List String :=
  ["DataModelSchema", "Report/Layout", "Version", "Settings", "Metadata"]

/-! ## JSON projections (reading back the emitted document, validator-style) -/

/-- The field list of a JSON object. -/
def jObjFields : Json → Option (List (String × Json))
  | .obj fs => some fs
  | _ => none

/-- The element list of a JSON array. -/
def jArrElems : Json → Option (List Json)
  | .arr xs => some xs
  | _ => none

/-- The value of a JSON string. -/
def jStrVal : Json → Option String
  | .str s => some s
  | _ => none

/-- First-match key lookup in a JSON object's field list. -/
def jlookup : List (String × Json) → String → Option Json
  | [], _ => none
  | (k, v) :: rest, key => if k = key then some v else jlookup rest key

/-- The `name` field of one column object. -/
def columnNameOfJson (j : Json) : Option String := do
  let fs ← jObjFields j
  let nm ← jlookup fs "name"
  jStrVal nm

/-- The column names of `model.tables[0].columns` of a `DataModelSchema`
document. -/
def firstTableColumnNames (j : Json) : Option (List String) := do
  let fs ← jObjFields j
  let model ← jlookup fs "model"
  let mfs ← jObjFields model
  let tables ← jlookup mfs "tables"
  let ts ← jArrElems tables
  let t0 ← ts.head?
  let tfs ← jObjFields t0
  let colsJ ← jlookup tfs "columns"
  let cs ← jArrElems colsJ
  cs.mapM columnNameOfJson

/-! ## Concrete inputs used by witnesses and counterexamples -/

/-- The empty workbook: no datasources, no worksheets. -/
def wbEmpty : Workbook := {}

/-- A constant identifier supply (identifier generation held fixed). -/
def uZero : Nat → String := fun _ => ""

/-- The template structure generated from the empty workbook. -/
def psEmpty : PbitStructure := generateMinimalPbitStructure wbEmpty uZero

/-- Datasource whose single column name carries surrounding whitespace after
bracket stripping (`[ Region]` strips to `· Region` with a leading space). -/
def dsSpace : Datasource :=
  { name := some "sales", caption := none, connection := none,
    columns := [{ name := some "[ Region]", caption := none,
                  datatype := some "string", role := none, type := none }] }

/-- Workbook wrapping `dsSpace`. -/
def wbSpace : Workbook :=
  { name := none, datasources := [dsSpace], worksheets := [], dashboards := [] }

/-- Datasource with a `federated.`-prefixed name and a connection schema. -/
def dsFed : Datasource :=
  { name := some "federated.0abc1", caption := none,
    connection := some { emptyConnection with schema := some "SALES" },
    columns := [] }

/-- Workbook wrapping `dsFed`. -/
def wbFed : Workbook :=
  { name := none, datasources := [dsFed], worksheets := [], dashboards := [] }

/-- Worksheet with a `line` mark and three encodings, two of which are
`color` and `size`. -/
def wsMulti : Worksheet :=
  { name := none, marks := [{ cls := some "line", type := none }],
    encodings := [("color", {}), ("size", {}), ("x", {})] }

/-! ## UTF-16LE round trip -/

/-- Decoding the UTF-16LE bytes of one character prepended to any byte list
recovers the character. -/
theorem utf16leDecodeList_encodeChar (c : Char) (bs : List Nat) :
    utf16leDecodeList (utf16leEncodeChar c ++ bs) =
      (utf16leDecodeList bs).map (fun cs => c :: cs) := by
  have hv : c.toNat < 0xd800 ∨ (0xdfff < c.toNat ∧ c.toNat < 0x110000) := c.valid
  have he : c.toNat % 256 + 256 * (c.toNat / 256) = c.toNat := Nat.mod_add_div _ _
  by_cases h : c.toNat < 0x10000
  · rw [utf16leEncodeChar, if_pos h]
    match bs with
    | [] =>
      show utf16leDecodeList [c.toNat % 256, c.toNat / 256] = _
      simp only [utf16leDecodeList, he]
      rw [if_neg (by omega)]
      simp [Char.ofNat_toNat]
    | [x] =>
      show utf16leDecodeList [c.toNat % 256, c.toNat / 256, x] = _
      simp only [utf16leDecodeList, he]
      rw [if_neg (by omega)]
      rfl
    | x :: y :: rest =>
      show utf16leDecodeList (c.toNat % 256 :: c.toNat / 256 :: x :: y :: rest) = _
      simp only [utf16leDecodeList, he]
      rw [if_neg (by omega), if_neg (by omega)]
      simp [Char.ofNat_toNat]
  · rw [utf16leEncodeChar, if_neg h]
    show utf16leDecodeList
        ((0xD800 + (c.toNat - 0x10000) / 0x400) % 256 ::
         (0xD800 + (c.toNat - 0x10000) / 0x400) / 256 ::
         (0xDC00 + (c.toNat - 0x10000) % 0x400) % 256 ::
         (0xDC00 + (c.toNat - 0x10000) % 0x400) / 256 :: bs) = _
    have h1 : (0xD800 + (c.toNat - 0x10000) / 0x400) % 256 +
        256 * ((0xD800 + (c.toNat - 0x10000) / 0x400) / 256) =
        0xD800 + (c.toNat - 0x10000) / 0x400 := Nat.mod_add_div _ _
    have h2 : (0xDC00 + (c.toNat - 0x10000) % 0x400) % 256 +
        256 * ((0xDC00 + (c.toNat - 0x10000) % 0x400) / 256) =
        0xDC00 + (c.toNat - 0x10000) % 0x400 := Nat.mod_add_div _ _
    simp only [utf16leDecodeList, h1, h2]
    rw [if_pos (by omega), if_pos (by omega)]
    have hcp : 0x10000 + (0xD800 + (c.toNat - 0x10000) / 0x400 - 0xD800) * 0x400 +
        (0xDC00 + (c.toNat - 0x10000) % 0x400 - 0xDC00) = c.toNat := by omega
    rw [hcp]
    simp [Char.ofNat_toNat]

/-- Decoding the UTF-16LE encoding of any character list recovers the list. -/
theorem utf16leDecodeList_encode (cs : List Char) :
    utf16leDecodeList ((cs.map utf16leEncodeChar).flatten) = some cs := by
  induction cs with
  | nil => rfl
  | cons c rest ih =>
    rw [List.map_cons, List.flatten_cons, utf16leDecodeList_encodeChar, ih]
    rfl

/-- Decoding the UTF-16LE encoding of any string recovers the string. -/
theorem utf16leDecode_encode (s : String) : utf16leDecode (utf16leEncode s) = some s := by
  rw [utf16leDecode, utf16leEncode, utf16leDecodeList_encode]
  rfl

/-! ## Helper lemmas about the column loop -/

/-- The source's type mapper agrees with the claims' TypeMapper table up to
the rendering of the semantic type names. -/
theorem mapPowerbiDatatype_eq_render (t : String) :
    mapPowerbiDatatype t = renderSemType (specTypeMapper t) := by
  rw [mapPowerbiDatatype, specTypeMapper]
  generalize pyToLower t = tl
  split_ifs with h1 h2 h3 h4 h5 h6 <;> simp_all <;> rfl

/-- The amended reference algorithm accepts nothing with zero remaining
slots. -/
theorem specRefColumnsAux_zero (cols : List PCol) (seen : List String) :
    specRefColumnsAux cols seen 0 = [] := by
  cases cols <;> simp [specRefColumnsAux]

/-- Stripping the empty string is the empty string. -/
theorem pyStrip_empty : pyStrip "" = "" := rfl

/-- The source loop's acceptance condition coincides with the amended
reference algorithm's (non-emptiness of the raw name is subsumed by
non-emptiness of the stripped name). -/
theorem accept_cond_iff (nm : String) (seen : List String) :
    (pyStrip nm ≠ "" ∧ pyStartsWith nm "Measure" = false ∧ nm ∉ seen) ↔
    (nm ≠ "" ∧ pyStartsWith nm "Measure" = false ∧ pyStrip nm ≠ "" ∧ nm ∉ seen) := by
  constructor
  · rintro ⟨h1, h2, h3⟩
    refine ⟨?_, h2, h1, h3⟩
    intro hnil
    rw [hnil] at h1
    exact h1 pyStrip_empty
  · rintro ⟨_, h2, h3, h4⟩
    exact ⟨h3, h2, h4⟩

/-- The source's column loop equals the amended reference algorithm run with
the remaining-slot budget `10 - acc.length`. -/
theorem buildColumnsLoop_eq_spec (cols : List PCol) :
    ∀ (seen : List String) (acc : List ColOut), acc.length < 10 →
      buildColumnsLoop cols seen acc =
        acc ++ (specRefColumnsAux cols seen (10 - acc.length)).map renderSpecCol := by
  induction cols with
  | nil =>
    intro seen acc h
    simp [buildColumnsLoop, specRefColumnsAux]
  | cons col rest ih =>
    intro seen acc h
    simp only [buildColumnsLoop, specRefColumnsAux]
    rw [if_neg (show ¬ (10 - acc.length = 0) by omega)]
    by_cases hc : pyStrip (stripBrackets (col.name.getD "")) ≠ "" ∧
        pyStartsWith (stripBrackets (col.name.getD "")) "Measure" = false ∧
        stripBrackets (col.name.getD "") ∉ seen
    · rw [if_pos ((accept_cond_iff _ _).1 hc), if_pos hc]
      by_cases h10 : 10 ≤ (acc ++
          [(⟨stripBrackets (col.name.getD ""),
             mapPowerbiDatatype (col.datatype.getD "string")⟩ : ColOut)]).length
      · rw [if_pos h10]
        have hf0 : 10 - acc.length - 1 = 0 := by
          simp only [List.length_append, List.length_cons, List.length_nil] at h10
          omega
        rw [hf0, specRefColumnsAux_zero]
        simp [renderSpecCol, mapPowerbiDatatype_eq_render]
      · rw [if_neg h10]
        rw [ih _ _ (by
          simp only [List.length_append, List.length_cons, List.length_nil] at h10 ⊢
          omega)]
        have hfe : 10 - (acc ++
            [(⟨stripBrackets (col.name.getD ""),
               mapPowerbiDatatype (col.datatype.getD "string")⟩ : ColOut)]).length =
            10 - acc.length - 1 := by
          simp only [List.length_append, List.length_cons, List.length_nil]
          omega
        rw [hfe]
        simp [renderSpecCol, mapPowerbiDatatype_eq_render]
    · rw [if_neg (fun hcode => hc ((accept_cond_iff _ _).2 hcode)), if_neg hc]
      exact ih seen acc h

/-- Invariants preserved by the source's column loop: no duplicate names, no
`Measure`-prefixed name, at most 10 entries, and monotone length. -/
theorem buildColumnsLoop_invariant (cols : List PCol) :
    ∀ (seen : List String) (acc : List ColOut),
      (∀ c ∈ acc, c.name ∈ seen) →
      (acc.map ColOut.name).Nodup →
      (∀ c ∈ acc, pyStartsWith c.name "Measure" = false) →
      acc.length ≤ 9 →
      ((buildColumnsLoop cols seen acc).map ColOut.name).Nodup ∧
      (∀ c ∈ buildColumnsLoop cols seen acc, pyStartsWith c.name "Measure" = false) ∧
      (buildColumnsLoop cols seen acc).length ≤ 10 ∧
      acc.length ≤ (buildColumnsLoop cols seen acc).length := by
  induction cols with
  | nil =>
    intro seen acc h1 h2 h3 h4
    simp only [buildColumnsLoop]
    exact ⟨h2, h3, by omega, Nat.le_refl _⟩
  | cons col rest ih =>
    intro seen acc h1 h2 h3 h4
    simp only [buildColumnsLoop]
    by_cases hc : stripBrackets (col.name.getD "") ≠ "" ∧
        pyStartsWith (stripBrackets (col.name.getD "")) "Measure" = false ∧
        pyStrip (stripBrackets (col.name.getD "")) ≠ "" ∧
        stripBrackets (col.name.getD "") ∉ seen
    · rw [if_pos hc]
      have hnotin : stripBrackets (col.name.getD "") ∉ acc.map ColOut.name := by
        intro hmem
        obtain ⟨c, hcmem, hceq⟩ := List.mem_map.1 hmem
        exact hc.2.2.2 (hceq ▸ h1 c hcmem)
      have h2' : ((acc ++
          [(⟨stripBrackets (col.name.getD ""),
             mapPowerbiDatatype (col.datatype.getD "string")⟩ : ColOut)]).map
            ColOut.name).Nodup := by
        rw [List.map_append]
        refine List.Nodup.append h2 (List.nodup_singleton _) ?_
        intro a ha hb
        simp only [List.map_cons, List.map_nil, List.mem_singleton] at hb
        rw [hb] at ha
        exact hnotin ha
      have h3' : ∀ c ∈ acc ++
          [(⟨stripBrackets (col.name.getD ""),
             mapPowerbiDatatype (col.datatype.getD "string")⟩ : ColOut)],
          pyStartsWith c.name "Measure" = false := by
        intro c hcm
        rcases List.mem_append.1 hcm with hl | hr
        · exact h3 c hl
        · simp only [List.mem_singleton] at hr
          rw [hr]
          exact hc.2.1
      by_cases h10 : 10 ≤ (acc ++
          [(⟨stripBrackets (col.name.getD ""),
             mapPowerbiDatatype (col.datatype.getD "string")⟩ : ColOut)]).length
      · rw [if_pos h10]
        refine ⟨h2', h3', ?_, ?_⟩ <;>
          simp only [List.length_append, List.length_cons, List.length_nil] <;> omega
      · rw [if_neg h10]
        have h1' : ∀ c ∈ acc ++
            [(⟨stripBrackets (col.name.getD ""),
               mapPowerbiDatatype (col.datatype.getD "string")⟩ : ColOut)],
            c.name ∈ stripBrackets (col.name.getD "") :: seen := by
          intro c hcm
          rcases List.mem_append.1 hcm with hl | hr
          · exact List.mem_cons_of_mem _ (h1 c hl)
          · simp only [List.mem_singleton] at hr
            rw [hr]
            exact List.mem_cons_self _ _
        have h4' : (acc ++
            [(⟨stripBrackets (col.name.getD ""),
               mapPowerbiDatatype (col.datatype.getD "string")⟩ : ColOut)]).length ≤ 9 := by
          simp only [List.length_append, List.length_cons, List.length_nil] at h10 ⊢
          omega
        obtain ⟨r1, r2, r3, r4⟩ := ih _ _ h1' h2' h3' h4'
        refine ⟨r1, r2, r3, ?_⟩
        refine Nat.le_trans ?_ r4
        simp only [List.length_append, List.length_cons, List.length_nil]
        omega
    · rw [if_neg hc]
      exact ih seen acc h1 h2 h3 h4

/-- The final column list always has between 1 and 10 entries, no duplicate
names and no `Measure`-prefixed name. -/
theorem columnsOf_props (wb : Workbook) :
    1 ≤ (columnsOf wb).length ∧ (columnsOf wb).length ≤ 10 ∧
    ((columnsOf wb).map ColOut.name).Nodup ∧
    (∀ c ∈ columnsOf wb, pyStartsWith c.name "Measure" = false) := by
  rw [columnsOf]
  rcases wb.datasources with _ | ⟨ds, rest⟩
  · simp [fallbackColumns]
    decide
  · simp only
    have hinv := buildColumnsLoop_invariant ds.columns [] []
        (by intro c hc; cases hc) List.nodup_nil (by intro c hc; cases hc) (by simp)
    rw [buildColumns] at *
    by_cases he : (buildColumnsLoop ds.columns [] []).isEmpty
    · rw [if_pos he]
      refine ⟨by decide, by decide, by decide, ?_⟩
      decide
    · rw [if_neg he]
      obtain ⟨r1, r2, r3, _⟩ := hinv
      refine ⟨?_, r3, r1, r2⟩
      rcases hempty : buildColumnsLoop ds.columns [] [] with _ | _
      · rw [hempty] at he
        simp at he
      · simp

/-! ## Helper lemmas about the emitted documents and the archive -/

/-- Extracting the `name` fields from the emitted column objects recovers the
column names, whatever the starting ordinal. -/
theorem mapM_colJson (u : Nat → String) (cols : List ColOut) :
    ∀ n, ((List.enumFrom n cols).map (fun p => colJson u p.1 p.2)).mapM columnNameOfJson =
      some (cols.map ColOut.name) := by
  induction cols with
  | nil => intro n; rfl
  | cons c rest ih =>
    intro n
    simp only [List.enumFrom, List.map_cons, List.mapM_cons]
    rw [show columnNameOfJson (colJson u n c) = some c.name from rfl]
    rw [ih (n + 1)]
    rfl

/-- Reading `model.tables[0].columns[*].name` back from the emitted
`DataModelSchema` document yields exactly the column names. -/
theorem firstTableColumnNames_dms (tableName : String) (cols : List ColOut)
    (mq : String) (u : Nat → String) :
    firstTableColumnNames (dataModelSchemaJson tableName cols mq u) =
      some (cols.map ColOut.name) := by
  have hnav : firstTableColumnNames (dataModelSchemaJson tableName cols mq u) =
      ((cols.enum.map (fun p => colJson u p.1 p.2)).mapM columnNameOfJson) := rfl
  rw [hnav]
  rw [show cols.enum = List.enumFrom 0 cols from rfl]
  exact mapM_colJson u cols 0

/-- The mark-class if-chain of the source equals the claims' lookup table. -/
theorem markVisualDefault_eq_lookup (s : String) :
    markVisualDefault s = specMarkLookup s := by
  rw [markVisualDefault]
  split_ifs with h1 h2 h3 h4 h5 h6
  · rcases h1 with rfl | rfl <;> rfl
  · subst h2; rfl
  · rcases h3 with rfl | rfl <;> rfl
  · rcases h4 with rfl | rfl <;> rfl
  · subst h5; rfl
  · subst h6; rfl
  · rw [specMarkLookup] <;> simp_all

/-- A JSON member's bytes start with the BOM and decode back to the compact
document after the BOM is stripped. -/
theorem jsonMemberBytes_spec (j : Json) :
    (jsonMemberBytes j).take 2 = utf16Bom ∧
    utf16leDecode ((jsonMemberBytes j).drop 2) = some (dumps j) := by
  constructor
  · rfl
  · show utf16leDecode (utf16leEncode (dumps j)) = some (dumps j)
    exact utf16leDecode_encode _

/-- Every archive entry's data is the member bytes of its name. -/
theorem pbitArchive_data (ps : PbitStructure) (rootOrder : List String)
    (mtime : String → Nat) :
    ∀ e ∈ pbitArchive ps rootOrder mtime, e.data = memberBytes ps e.name := by
  intro e he
  rw [pbitArchive] at he
  obtain ⟨n, _, rfl⟩ := List.mem_map.1 he
  rfl

/-! ## Claim theorems -/

/-- Claim C1, counterexample: with the root files enumerated in creation
order, the archive's member order is DataModelSchema, Version, Settings,
Metadata, Report/Layout — not the claimed order with Report/Layout second.
`os.walk` always lists the staging root's files before the `Report`
subdirectory, so the claimed order never occurs. -/
theorem C1_counterexample :
    pbitMemberNames psEmpty rootMemberWriteOrder (fun _ => 0) ≠ claimedMemberOrder := by
  intro h
  rw [show pbitMemberNames psEmpty rootMemberWriteOrder (fun _ => 0) =
      ["DataModelSchema", "Version", "Settings", "Metadata", "Report/Layout"] from rfl] at h
  exact absurd h (by decide)

/-- Claim C1, amended: for every produced package and every enumeration order
of the staging root (a permutation of the four root files), the archive
contains exactly the five required members — a permutation of the claimed
five — with `Report/Layout` as the LAST member, and has exactly 5 members;
the relative order of the first four is the directory-enumeration order. -/
theorem C1_corrected (ps : PbitStructure) (rootOrder : List String) (mtime : String → Nat)
    (h : rootOrder.Perm rootMemberWriteOrder) :
    (pbitMemberNames ps rootOrder mtime).Perm claimedMemberOrder ∧
    (pbitMemberNames ps rootOrder mtime).getLast? = some "Report/Layout" ∧
    (pbitMemberNames ps rootOrder mtime).length = 5 := by
  have hmap : ∀ (l : List String),
      (l.map (fun n => (⟨n, mtime n, memberBytes ps n⟩ : ZipEntry))).map ZipEntry.name = l := by
    intro l
    induction l with
    | nil => rfl
    | cons a t ih =>
      rw [List.map_cons, List.map_cons, ih]
  have hn : pbitMemberNames ps rootOrder mtime = rootOrder ++ ["Report/Layout"] := by
    rw [pbitMemberNames, pbitArchive]
    exact hmap _
  rw [hn]
  refine ⟨?_, ?_, ?_⟩
  · refine (h.append_right _).trans ?_
    decide
  · rw [List.getLast?_concat]
  · rw [List.length_append, h.length_eq]
    rfl

/-- Claim C1, witness: the amended statement instantiated at the empty
workbook's package with the creation enumeration order. -/
theorem C1_witness :
    (pbitMemberNames psEmpty rootMemberWriteOrder (fun _ => 0)).Perm claimedMemberOrder ∧
    (pbitMemberNames psEmpty rootMemberWriteOrder (fun _ => 0)).getLast? =
      some "Report/Layout" ∧
    (pbitMemberNames psEmpty rootMemberWriteOrder (fun _ => 0)).length = 5 :=
  C1_corrected psEmpty rootMemberWriteOrder (fun _ => 0) (List.Perm.refl _)

/-- Claim C2: for every workbook, each of the four JSON-bearing members
(DataModelSchema, Report/Layout, Settings, Metadata) begins with the 2-byte
BOM `FF FE` and, after stripping it, decodes as UTF-16LE exactly to the
compact JSON document; the Version member is the UTF-8 bytes of `4.0` and
carries no BOM. -/
theorem C2_confirmed (wb : Workbook) (u : Nat → String) :
    ((memberBytes (generateMinimalPbitStructure wb u) "DataModelSchema").take 2 = utf16Bom ∧
      utf16leDecode ((memberBytes (generateMinimalPbitStructure wb u) "DataModelSchema").drop 2) =
        some (dumps (generateMinimalPbitStructure wb u).dataModelSchema)) ∧
    ((memberBytes (generateMinimalPbitStructure wb u) "Report/Layout").take 2 = utf16Bom ∧
      utf16leDecode ((memberBytes (generateMinimalPbitStructure wb u) "Report/Layout").drop 2) =
        some (dumps (generateMinimalPbitStructure wb u).layout)) ∧
    ((memberBytes (generateMinimalPbitStructure wb u) "Settings").take 2 = utf16Bom ∧
      utf16leDecode ((memberBytes (generateMinimalPbitStructure wb u) "Settings").drop 2) =
        some (dumps (generateMinimalPbitStructure wb u).settings)) ∧
    ((memberBytes (generateMinimalPbitStructure wb u) "Metadata").take 2 = utf16Bom ∧
      utf16leDecode ((memberBytes (generateMinimalPbitStructure wb u) "Metadata").drop 2) =
        some (dumps (generateMinimalPbitStructure wb u).metadata)) ∧
    (memberBytes (generateMinimalPbitStructure wb u) "Version" = utf8Encode "4.0" ∧
      (memberBytes (generateMinimalPbitStructure wb u) "Version").take 3 ≠
        [0xEF, 0xBB, 0xBF]) := by
  refine ⟨?_, ?_, ?_, ?_, ?_, ?_⟩
  · exact jsonMemberBytes_spec _
  · exact jsonMemberBytes_spec _
  · exact jsonMemberBytes_spec _
  · exact jsonMemberBytes_spec _
  · rfl
  · exact fun hcon =>
      absurd (show ([52, 46, 48] : List Nat) = [0xEF, 0xBB, 0xBF] from hcon) (by decide)

/-- Claim C3, counterexample: on a datasource whose column is named
`[ Region]`, the source keeps the untrimmed name `· Region` while the
claim's reference algorithm (which trims surrounding whitespace) produces
`Region`, so the two column lists differ. -/
theorem C3_counterexample :
    columnsOf wbSpace ≠ (specRefColumnsTrim dsSpace.columns).map renderSpecCol := by
  decide

/-- Claim C3, amended: for every workbook with at least one datasource, the
model's column list equals the reference algorithm with the trimming step
removed — names are kept untrimmed, whitespace-only names are rejected, the
`Measure` prefix test and de-duplication use the untrimmed name — with the
fallback pair substituted when no column is accepted; semantic types are
assigned by the TypeMapper table. -/
theorem C3_corrected (wb : Workbook) (ds : Datasource) (rest : List Datasource)
    (h : wb.datasources = ds :: rest) :
    columnsOf wb =
      (if ((specRefColumns ds.columns).map renderSpecCol).isEmpty then fallbackColumns
       else (specRefColumns ds.columns).map renderSpecCol) := by
  rw [columnsOf, h]
  simp only
  rw [buildColumns, buildColumnsLoop_eq_spec ds.columns [] [] (by simp)]
  rw [List.nil_append]
  rw [specRefColumns]
  rfl

/-- Claim C3, witness: the amended statement instantiated at the
`[ Region]` datasource, evaluating to the untrimmed single column. -/
theorem C3_witness : columnsOf wbSpace = [⟨" Region", "string"⟩] := by
  rw [C3_corrected wbSpace dsSpace [] rfl]
  decide

/-- Claim C4: for every workbook, the emitted DataModelSchema's first table's
column list (read back from the document) has between 1 and 10 entries, no
duplicate names, and no name starting with `Measure`. -/
theorem C4_confirmed (wb : Workbook) (u : Nat → String) :
    ∃ names : List String,
      firstTableColumnNames (generateMinimalPbitStructure wb u).dataModelSchema = some names ∧
      1 ≤ names.length ∧ names.length ≤ 10 ∧ names.Nodup ∧
      ∀ nm ∈ names, pyStartsWith nm "Measure" = false := by
  obtain ⟨p1, p2, p3, p4⟩ := columnsOf_props wb
  refine ⟨(columnsOf wb).map ColOut.name, ?_, ?_, ?_, p3, ?_⟩
  · exact firstTableColumnNames_dms _ _ _ _
  · rw [List.length_map]
    exact p1
  · rw [List.length_map]
    exact p2
  · intro nm hnm
    obtain ⟨c, hc, rfl⟩ := List.mem_map.1 hnm
    exact p4 c hc

/-- Claim C5: whenever the workbook has no datasource, or column filtering
accepts zero columns, the model's column list is exactly the fallback pair
`Category` (text, rendered `string`) followed by `Value` (double). -/
theorem C5_confirmed (wb : Workbook)
    (h : wb.datasources = [] ∨
      ∃ ds rest, wb.datasources = ds :: rest ∧ buildColumns ds = []) :
    columnsOf wb = [⟨"Category", renderSemType .text⟩, ⟨"Value", renderSemType .double⟩] := by
  rw [columnsOf]
  rcases h with h | ⟨ds, rest, h, hcols⟩
  · rw [h]
    rfl
  · rw [h]
    simp only
    rw [hcols]
    rfl

/-- Claim C5, witness: the empty workbook yields exactly the fallback
pair. -/
theorem C5_witness :
    columnsOf wbEmpty = [⟨"Category", "string"⟩, ⟨"Value", "double"⟩] := by
  have h := C5_confirmed wbEmpty (Or.inl rfl)
  simpa [renderSemType] using h

/-- Claim C6: for every workbook with at least one datasource, the resolved
table name follows the claimed cascade — the datasource's own name, else its
connection schema, else `SampleData`, with `federated.`-prefixed resolved
names replaced by `SampleData`. -/
theorem C6_confirmed (wb : Workbook) (ds : Datasource) (rest : List Datasource)
    (h : wb.datasources = ds :: rest) : tableNameOf wb = specTableName ds := by
  obtain ⟨nm, cap, conn, cols⟩ := ds
  rw [tableNameOf, specTableName, h]
  cases nm with
  | some n => rfl
  | none =>
    cases conn with
    | none => rfl
    | some c =>
      obtain ⟨cc, cs, cp, cd, cu, ca, csch⟩ := c
      cases csch <;> rfl

/-- Claim C6, witness: a `federated.`-prefixed datasource name resolves to
the default `SampleData`. -/
theorem C6_witness : tableNameOf wbFed = "SampleData" := by
  rw [C6_confirmed wbFed dsFed [] rfl]
  decide

/-- Claim C7, counterexample: a worksheet with mark `line` and the three
encodings `color`, `size`, `x` has three or more encodings, yet the source
returns `scatterChart`, not `table` — the claim's unconditional
three-encodings table override is false. -/
theorem C7_counterexample :
    3 ≤ wsMulti.encodings.length ∧ getTableauVisualType wsMulti = "scatterChart" ∧
      getTableauVisualType wsMulti ≠ "table" := by
  decide

/-- Claim C7, amended: for every worksheet, the chart kind is the claimed
mark-class lookup on the first mark, overridden to scatter chart when both
`color` and `size` encodings are present, and OTHERWISE overridden to table
when three or more encodings are present: the scatter override takes
precedence over the table override, and both take precedence over the
mark-based default. -/
theorem C7_corrected (ws : Worksheet) : getTableauVisualType ws = specChartKind ws := by
  rw [getTableauVisualType, specChartKind]
  by_cases h1 : "color" ∈ ws.encodings.map Prod.fst ∧ "size" ∈ ws.encodings.map Prod.fst
  · rw [if_pos h1, if_pos h1]
  · rw [if_neg h1, if_neg h1]
    by_cases h2 : 3 ≤ ws.encodings.length
    · rw [if_pos h2, if_pos h2]
    · rw [if_neg h2, if_neg h2]
      cases ws.marks with
      | nil => rfl
      | cons m rest => exact markVisualDefault_eq_lookup _

/-- Claim C8: the query-expression builder is total by construction,
dispatches case-insensitively on the connection class (only the lower-cased
class matters), falls back to the default SQL family on an unrecognized
class, and with an empty port every connector family uses the server string
alone (no default port is substituted). -/
theorem C8_confirmed (tableName : String) (ci : Connection) :
    (∀ s1 s2 : String, pyToLower s1 = pyToLower s2 →
        generateEnhancedMQuery tableName { ci with cls := some s1 } =
          generateEnhancedMQuery tableName { ci with cls := some s2 }) ∧
    (pyToLower (ci.cls.getD "") ∉ (["oracle", "mysql", "postgresql"] : List String) →
        generateEnhancedMQuery tableName ci =
          sqlServerMQuery (ci.server.getD "localhost") (ci.dbname.getD "SampleDB")
            (ci.schema.getD "dbo") tableName) ∧
    (ci.port.getD "" = "" →
        generateEnhancedMQuery tableName ci =
          (if pyToLower (ci.cls.getD "") = "oracle" then
            oracleMQuery (ci.server.getD "localhost") (ci.dbname.getD "SampleDB")
              (ci.schema.getD "dbo") tableName
          else if pyToLower (ci.cls.getD "") = "mysql" then
            mysqlMQuery (ci.server.getD "localhost") (ci.dbname.getD "SampleDB") tableName
          else if pyToLower (ci.cls.getD "") = "postgresql" then
            postgresMQuery (ci.server.getD "localhost") (ci.dbname.getD "SampleDB")
              (ci.schema.getD "dbo") tableName
          else
            sqlServerMQuery (ci.server.getD "localhost") (ci.dbname.getD "SampleDB")
              (ci.schema.getD "dbo") tableName)) := by
  refine ⟨?_, ?_, ?_⟩
  · intro s1 s2 h
    simp only [generateEnhancedMQuery, Option.getD_some]
    rw [h]
  · intro h
    simp only [List.mem_cons, List.not_mem_nil, or_false, not_or] at h
    obtain ⟨h1, h2, h3⟩ := h
    simp only [generateEnhancedMQuery]
    rw [if_neg h1, if_neg h2, if_neg h3]
  · intro hp
    simp only [generateEnhancedMQuery]
    rw [hp]
    by_cases h1 : pyToLower (ci.cls.getD "") = "oracle"
    · rw [if_pos h1, if_pos h1, if_neg (fun hne => hne rfl)]
    · rw [if_neg h1, if_neg h1]

/-- Claim C8, witness: `ORACLE` and `oracle` build the same expression, and
an empty connection dictionary falls back to the default SQL family. -/
theorem C8_witness :
    (generateEnhancedMQuery "T" { emptyConnection with cls := some "ORACLE" } =
      generateEnhancedMQuery "T" { emptyConnection with cls := some "oracle" }) ∧
    (generateEnhancedMQuery "T" emptyConnection =
      sqlServerMQuery "localhost" "SampleDB" "dbo" "T") := by
  constructor
  · exact (C8_confirmed "T" emptyConnection).1 "ORACLE" "oracle" (by decide)
  · exact (C8_confirmed "T" emptyConnection).2.1 (by decide)

/-- Claim C9, counterexample: the same template structure, identifier supply
and enumeration order serialized under two file-timestamp environments give
different archives — `zipfile` stores each member's modification time, so the
bytes differ across runs even with identifiers held constant. -/
theorem C9_counterexample :
    pbitArchive psEmpty rootMemberWriteOrder (fun _ => 0) ≠
      pbitArchive psEmpty rootMemberWriteOrder (fun _ => 1) := by
  intro h
  have h2 := congrArg (fun l => l.map ZipEntry.mtime) h
  simp [pbitArchive, List.map_map, rootMemberWriteOrder] at h2

/-- Claim C9, amended: serialization is deterministic once the member
timestamps (and enumeration order) are held constant along with the model
and the generated identifiers. -/
theorem C9_corrected (ps : PbitStructure) (rootOrder : List String)
    (m1 m2 : String → Nat) (h : ∀ n, m1 n = m2 n) :
    pbitArchive ps rootOrder m1 = pbitArchive ps rootOrder m2 := by
  have he : m1 = m2 := funext h
  rw [he]

/-- Claim C9, witness: the amended statement instantiated at the empty
workbook's package with a fixed timestamp environment. -/
theorem C9_witness :
    pbitArchive psEmpty rootMemberWriteOrder (fun _ => 0) =
      pbitArchive psEmpty rootMemberWriteOrder (fun _ => 0) :=
  C9_corrected psEmpty rootMemberWriteOrder _ _ (fun _ => rfl)

/-- Claim C10: for every workbook and identifier supply, the Metadata member
content is the fixed constant — version `4.0`, culture `en-US`, and the
hard-coded `modifiedTime` literal `2024-01-01T00:00:00.000Z` — independent of
the input. -/
theorem C10_confirmed (wb : Workbook) (u : Nat → String) :
    (generateMinimalPbitStructure wb u).metadata =
      Json.obj [("version", Json.str "4.0"), ("culture", Json.str "en-US"),
        ("modifiedTime", Json.str "2024-01-01T00:00:00.000Z")] := rfl

end Spark
